import Mathlib

/-!
Shallow embedding of the short-link resolution engine (the `GET /:code`
redirect handler and its helpers) of the `shorturl` Cloudflare worker,
together with proofs about the claims of its specification.

Numbers from the database are modelled as `Nat` / `Option Nat` (SQLite
integer columns, `NULL` as `none`); JavaScript truthiness tests on them
(`if (x)`) are modelled explicitly (`none` and `some 0` are falsy, the
empty string is falsy).  The Web-Crypto HMAC-SHA-256 primitive used by
`generateHmacSignature` is implemented concretely (FIPS 180-4 SHA-256
over UTF-8 bytes), with machine words as `Nat` reduced mod `2^32`.
-/

namespace Shorturl

/-! ### Bytes, hex encoding, UTF-8 -/

/-- One 32-bit word: reduce mod `2^32`. -/
def w32 (n : Nat) : Nat := n % 4294967296

/-- Right rotation of a 32-bit word. -/
def rotr (n x : Nat) : Nat := w32 ((x >>> n) ||| (x <<< (32 - n)))

/-- Lower-case hex digit, as produced by JavaScript `toString(16)`. -/
def hexDigit (n : Nat) : Char :=
  if n < 10 then Char.ofNat (48 + n) else Char.ofNat (87 + n)

/-- Two-digit lower-case hex of a byte: `b.toString(16).padStart(2, '0')`
for `b < 256`. -/
def hexByte (b : Nat) : List Char := [hexDigit (b / 16), hexDigit (b % 16)]

/-- Hex string of a byte list, as in
`signatureArray.map(b => b.toString(16).padStart(2,'0')).join('')`. -/
def toHex (bytes : List Nat) : String :=
  String.mk (bytes.foldr (fun b acc => hexByte b ++ acc) [])

/-- UTF-8 encoding of one scalar value (what `TextEncoder` emits). -/
def utf8Char (c : Char) : List Nat :=
  let n := c.toNat
  if n < 128 then [n]
  else if n < 2048 then [192 ||| (n >>> 6), 128 ||| (n &&& 63)]
  else if n < 65536 then
    [224 ||| (n >>> 12), 128 ||| ((n >>> 6) &&& 63), 128 ||| (n &&& 63)]
  else
    [240 ||| (n >>> 18), 128 ||| ((n >>> 12) &&& 63),
     128 ||| ((n >>> 6) &&& 63), 128 ||| (n &&& 63)]

/-- UTF-8 encoding of a string (`new TextEncoder().encode(s)`). -/
def utf8Encode (s : String) : List Nat :=
  s.data.foldr (fun c acc => utf8Char c ++ acc) []

/-! ### SHA-256 (FIPS 180-4) -/

/-- The SHA-256 round constants, in rounds 0–7, 8–15, …, 56–63. -/
def shaK : List Nat :=
  [0x428a2f98, 0x71374491, 0xb5c0fbcf, 0xe9b5dba5,
   0x3956c25b, 0x59f111f1, 0x923f82a4, 0xab1c5ed5] ++
  [0xd807aa98, 0x12835b01, 0x243185be, 0x550c7dc3,
   0x72be5d74, 0x80deb1fe, 0x9bdc06a7, 0xc19bf174] ++
  [0xe49b69c1, 0xefbe4786, 0x0fc19dc6, 0x240ca1cc,
   0x2de92c6f, 0x4a7484aa, 0x5cb0a9dc, 0x76f988da] ++
  [0x983e5152, 0xa831c66d, 0xb00327c8, 0xbf597fc7,
   0xc6e00bf3, 0xd5a79147, 0x06ca6351, 0x14292967] ++
  [0x27b70a85, 0x2e1b2138, 0x4d2c6dfc, 0x53380d13,
   0x650a7354, 0x766a0abb, 0x81c2c92e, 0x92722c85] ++
  [0xa2bfe8a1, 0xa81a664b, 0xc24b8b70, 0xc76c51a3,
   0xd192e819, 0xd6990624, 0xf40e3585, 0x106aa070] ++
  [0x19a4c116, 0x1e376c08, 0x2748774c, 0x34b0bcb5,
   0x391c0cb3, 0x4ed8aa4a, 0x5b9cca4f, 0x682e6ff3] ++
  [0x748f82ee, 0x78a5636f, 0x84c87814, 0x8cc70208,
   0x90befffa, 0xa4506ceb, 0xbef9a3f7, 0xc67178f2]

/-- Bitwise complement within 32 bits. -/
def wnot (x : Nat) : Nat := 4294967295 - w32 x

def shaCh (x y z : Nat) : Nat := (x &&& y) ^^^ (wnot x &&& z)

def shaMaj (x y z : Nat) : Nat := (x &&& y) ^^^ (x &&& z) ^^^ (y &&& z)

def bigSigma0 (x : Nat) : Nat := rotr 2 x ^^^ rotr 13 x ^^^ rotr 22 x

def bigSigma1 (x : Nat) : Nat := rotr 6 x ^^^ rotr 11 x ^^^ rotr 25 x

def smallSigma0 (x : Nat) : Nat := rotr 7 x ^^^ rotr 18 x ^^^ (x >>> 3)

def smallSigma1 (x : Nat) : Nat := rotr 17 x ^^^ rotr 19 x ^^^ (x >>> 10)

/-- SHA-256 working state: eight 32-bit words. -/
structure Sha2State where
  a : Nat
  b : Nat
  c : Nat
  d : Nat
  e : Nat
  f : Nat
  g : Nat
  h : Nat
deriving DecidableEq

/-- Initial SHA-256 hash value. -/
def shaInit : Sha2State :=
  ⟨0x6a09e667, 0xbb67ae85, 0x3c6ef372, 0xa54ff53a,
   0x510e527f, 0x9b05688c, 0x1f83d9ab, 0x5be0cd19⟩

/-- One big-endian 32-bit word from four bytes. -/
def word4 (b0 b1 b2 b3 : Nat) : Nat := (((b0 <<< 8 ||| b1) <<< 8 ||| b2) <<< 8) ||| b3

/-- The sixteen big-endian words of one 64-byte chunk. -/
def chunkWords (chunk : List Nat) : List Nat :=
  (List.range 16).map fun i =>
    word4 (chunk.getD (4 * i) 0) (chunk.getD (4 * i + 1) 0)
          (chunk.getD (4 * i + 2) 0) (chunk.getD (4 * i + 3) 0)

/-- One message-schedule extension step, on the reversed schedule
(most recent word first). -/
def extendStep (rw : List Nat) : List Nat :=
  w32 (smallSigma1 (rw.getD 1 0) + rw.getD 6 0 +
       smallSigma0 (rw.getD 14 0) + rw.getD 15 0) :: rw

/-- The 64-word message schedule of one chunk. -/
def schedule (chunk : List Nat) : List Nat :=
  (Nat.repeat extendStep 48 (chunkWords chunk).reverse).reverse

/-- One compression round. -/
def compressStep (st : Sha2State) (kw : Nat × Nat) : Sha2State :=
  let t1 := w32 (st.h + bigSigma1 st.e + shaCh st.e st.f st.g + kw.1 + kw.2)
  let t2 := w32 (bigSigma0 st.a + shaMaj st.a st.b st.c)
  ⟨w32 (t1 + t2), st.a, st.b, st.c, w32 (st.d + t1), st.e, st.f, st.g⟩

/-- Compress one 64-byte chunk into the running state. -/
def processChunk (st : Sha2State) (chunk : List Nat) : Sha2State :=
  let r := (shaK.zip (schedule chunk)).foldl compressStep st
  ⟨w32 (st.a + r.a), w32 (st.b + r.b), w32 (st.c + r.c), w32 (st.d + r.d),
   w32 (st.e + r.e), w32 (st.f + r.f), w32 (st.g + r.g), w32 (st.h + r.h)⟩

/-- SHA-256 padding: append `0x80`, zeros to 56 mod 64, then the 64-bit
big-endian bit length. -/
def shaPad (msg : List Nat) : List Nat :=
  let len := msg.length
  let bitLen := 8 * len
  msg ++ [128] ++ List.replicate ((119 - len % 64) % 64) 0 ++
    [(bitLen >>> 56) % 256, (bitLen >>> 48) % 256, (bitLen >>> 40) % 256,
     (bitLen >>> 32) % 256, (bitLen >>> 24) % 256, (bitLen >>> 16) % 256,
     (bitLen >>> 8) % 256, bitLen % 256]

/-- The 32 big-endian digest bytes of a final state. -/
def stateBytes (st : Sha2State) : List Nat :=
  [(st.a >>> 24) % 256, (st.a >>> 16) % 256, (st.a >>> 8) % 256, st.a % 256,
   (st.b >>> 24) % 256, (st.b >>> 16) % 256, (st.b >>> 8) % 256, st.b % 256,
   (st.c >>> 24) % 256, (st.c >>> 16) % 256, (st.c >>> 8) % 256, st.c % 256,
   (st.d >>> 24) % 256, (st.d >>> 16) % 256, (st.d >>> 8) % 256, st.d % 256,
   (st.e >>> 24) % 256, (st.e >>> 16) % 256, (st.e >>> 8) % 256, st.e % 256,
   (st.f >>> 24) % 256, (st.f >>> 16) % 256, (st.f >>> 8) % 256, st.f % 256,
   (st.g >>> 24) % 256, (st.g >>> 16) % 256, (st.g >>> 8) % 256, st.g % 256,
   (st.h >>> 24) % 256, (st.h >>> 16) % 256, (st.h >>> 8) % 256, st.h % 256]

/-- SHA-256 of a byte list, as a list of 32 bytes. -/
def sha256 (msg : List Nat) : List Nat :=
  let padded := shaPad msg
  stateBytes ((List.range (padded.length / 64)).foldl
    (fun st i => processChunk st ((padded.drop (64 * i)).take 64)) shaInit)

/-- HMAC-SHA-256 (RFC 2104), as performed by
`crypto.subtle.importKey / crypto.subtle.sign('HMAC', ...)`. -/
def hmacSha256 (key msg : List Nat) : List Nat :=
  let k0 := if 64 < key.length then sha256 key else key
  let k := k0 ++ List.replicate (64 - k0.length) 0
  let ipad := k.map fun b => b ^^^ 0x36
  let opad := k.map fun b => b ^^^ 0x5c
  sha256 (opad ++ sha256 (ipad ++ msg))

set_option maxRecDepth 8000 in
/-- Known-answer check: SHA-256 of the empty message. -/
theorem sha256_empty_vector :
    toHex (sha256 []) =
      "e3b0c44298fc1c149afbf4c8996fb92427ae41e4649b934ca495991b7852b855" := by
  decide

set_option maxRecDepth 8000 in
/-- Known-answer check: HMAC-SHA-256 RFC test vector. -/
theorem hmacSha256_vector :
    toHex (hmacSha256 (utf8Encode "key")
      (utf8Encode "The quick brown fox jumps over the lazy dog")) =
      "f7bc83f430538424b13298e6aa6fb143ef4d59a14946175997479dbc2d1a3cd8" := by
  decide

/-! ### Interstitial ticket protocol (`generateHmacSignature` / `verifyHmacSignature`) -/

/-- An integral JavaScript number as produced by `parseInt`: either an
integer or `NaN`. -/
inductive JsNum where
  | nan : JsNum
  | int (i : Int) : JsNum
deriving DecidableEq

/-- Template-literal stringification `${timestamp}` of an integral
JavaScript number. -/
def JsNum.str : JsNum → String
  | .nan => "NaN"
  | .int i => toString i

/-- The canonical string signed by the ticket protocol:
`` `${timestamp}:${host}:${code}` ``. -/
def hmacMessage (timestamp : JsNum) (host code : String) : String :=
  timestamp.str ++ ":" ++ host ++ ":" ++ code

/-- `generateHmacSignature`: hex-encoded HMAC-SHA-256 of the canonical
string under the UTF-8 bytes of `secret`. -/
def generateHmacSignature (secret : String) (timestamp : JsNum)
    (host code : String) : String :=
  toHex (hmacSha256 (utf8Encode secret) (utf8Encode (hmacMessage timestamp host code)))

/-- `verifyHmacSignature`: recompute and compare for equality. -/
def verifyHmacSignature (secret : String) (timestamp : JsNum)
    (host code providedSignature : String) : Bool :=
  generateHmacSignature secret timestamp host code == providedSignature

/-- JavaScript `parseInt(s, 10)`: optional sign, then the longest leading
run of decimal digits; `NaN` when there is none.  (Leading-whitespace
trimming is not modelled; no caller supplies whitespace.) -/
def parseIntJs (s : String) : JsNum :=
  let core (l : List Char) (neg : Bool) : JsNum :=
    let digits := l.takeWhile fun c => c.isDigit
    if digits.isEmpty then .nan
    else
      let n := digits.foldl (fun (acc : Nat) c => 10 * acc + (c.toNat - 48)) 0
      .int (if neg then -(n : Int) else (n : Int))
  match s.data with
  | [] => .nan
  | c :: rest =>
    if c = Char.ofNat 45 then core rest true
    else if c = Char.ofNat 43 then core rest false
    else core (c :: rest) false

/-! ### Data model

The rows the handler reads, with `NULL`-able SQLite columns as `Option`.
The field `asset_pfx` renders the source column `asset_prefix` (renamed
here), and `main_file` / `r2_key` keep their source names. -/

/-- A `redirect_templates` row (`is_active` included: the SQL filters on
it). -/
structure TemplateRow where
  is_active : Nat
  content_type : Nat
  html_content : Option String
  main_file : Option String
  asset_pfx : Option String
deriving DecidableEq

/-- A `template_assets` row; `content` (a decoded `ArrayBuffer`) is
modelled by the text `TextDecoder` produces from it. -/
structure TemplateAsset where
  storage_type : Nat
  content : Option String
  r2_key : Option String
deriving DecidableEq

/-- A `domains` row as read by `getErrorPageHtml` when no link matched. -/
structure DomainRow where
  is_active : Nat
  error_template_id : Option Nat
deriving DecidableEq

/-- The environment the handler reads: the (read-only) tables, the R2
bucket (`none` when unbound), and the signing secret `JWT_SECRET`. -/
structure Env where
  templates : Nat → Option TemplateRow
  assets : String → String → Option TemplateAsset
  r2 : Option (String → Option String)
  domains : String → Option DomainRow
  jwtSecret : String

/-- The joined `short_links` row returned by the lookup query (the query
itself already filters `deleted_at IS NULL`, `is_disabled = 0`,
`d.is_active = 1`). -/
structure ShortLink where
  id : Nat
  domain_id : Nat
  code : String
  target_url : String
  redirect_http_code : Nat
  use_interstitial : Nat
  interstitial_delay : Int
  force_interstitial : Nat
  template_id : Option Nat
  password : Option String
  max_visits : Option Nat
  expire_at : Option Nat
  total_clicks : Nat
  password_template_id : Option Nat
  error_template_id : Option Nat
  domain_password_template_id : Option Nat
  domain_error_template_id : Option Nat
deriving DecidableEq

/-- The per-request client context (headers, Cloudflare geo data, and the
device fields of the external `ua-parser-js` call, all pass-through). -/
structure RequestCtx where
  ip : Option String
  ua : Option String
  referer : Option String
  country : String
  region : String
  city : String
  device_type : String
  os : String
  browser : String
deriving DecidableEq

/-- One `link_visit_events` row as inserted by `recordVisitEvent`. -/
structure VisitEventData where
  short_link_id : Nat
  domain_id : Nat
  code : String
  visited_at : Nat
  ip : Option String
  ua : Option String
  referer : Option String
  country : String
  region : String
  city : String
  device_type : String
  os : String
  browser : String
  is_blocked : Nat
  block_reason : Option String
  http_status : Nat
deriving DecidableEq

/-- The HTTP response the handler produces. -/
inductive Response where
  | html (body : String) (status : Nat)
  | jsonErr (error message : String) (status : Nat)
  | text (body : String) (status : Nat)
  | redirect (url : String) (status : Nat)
deriving DecidableEq

/-- The HTTP status of a response. -/
def Response.status : Response → Nat
  | .html _ s => s
  | .jsonErr _ _ s => s
  | .text _ s => s
  | .redirect _ s => s

/-- The result of one request: the response, the visit events recorded
(in dispatch order), and how often `total_clicks` was incremented. -/
structure HandlerResult where
  response : Response
  events : List VisitEventData
  clicksIncremented : Nat
deriving DecidableEq

/-! ### Template content retrieval -/

/-- Placeholder substitution: for each `(key, value)` replace every
occurrence of the literal `\x7b\x7bkey\x7d\x7d` (the code builds a
global regex from the literal key). -/
def applyReplacements (replacements : List (String × String)) (html : String) : String :=
  replacements.foldl
    (fun h kv => h.replace ("\x7b\x7b" ++ kv.1 ++ "\x7d\x7d") kv.2) html

/-- The early-returning part of `getTemplateContent` (source lines up to
the replacement loop): fetch an active template row and take its inline
HTML or its main asset (database blob or R2 object); every miss yields
`none`.  JavaScript falsiness of the string fields (`null` or `""`) is
modelled explicitly. -/
def loadTemplateHtml (env : Env) (templateId : Nat) : Option String :=
  match env.templates templateId with
  | none => none
  | some template =>
    if template.is_active != 1 then none
    else if template.content_type = 0 then
      match template.html_content with
      | none => none
      | some h => if h = "" then none else some h
    else if template.content_type = 1 then
      match template.main_file, template.asset_pfx with
      | some mf, some pfx =>
        if mf = "" ∨ pfx = "" then none
        else
          match env.assets pfx mf with
          | none => none
          | some asset =>
            if asset.storage_type = 0 then asset.content
            else if asset.storage_type = 1 then
              match asset.r2_key, env.r2 with
              | some key, some bucket =>
                if key = "" then none else bucket key
              | _, _ => none
            else none
      | _, _ => none
    else none

/-- `getTemplateContent`: load the template HTML and apply the
replacements to it. -/
def getTemplateContent (env : Env) (templateId : Nat)
    (replacements : List (String × String)) : Option String :=
  match loadTemplateHtml env templateId with
  | none => none
  | some h => some (applyReplacements replacements h)

/-- `getErrorPageHtml`: choose the link-level error template id if
non-`NULL`, else the domain-level one (for a resolved link), or the
active domain row's error template id (when no link matched); a missing
or zero id, or a failed content load, yields `none`. -/
def getErrorPageHtml (env : Env) (host : String) (shortLink : Option ShortLink)
    (replacements : List (String × String)) : Option String :=
  let templateId : Option Nat :=
    match shortLink with
    | some l =>
      match l.error_template_id with
      | some t => some t
      | none => l.domain_error_template_id
    | none =>
      match env.domains host with
      | some d => if d.is_active = 1 then d.error_template_id else none
      | none => none
  match templateId with
  | none => none
  | some tid => if tid = 0 then none else getTemplateContent env tid replacements

/-! ### The `GET /:code` handler -/

/-- JavaScript truthiness of a nullable number column. -/
def truthyOpt : Option Nat → Bool
  | none => false
  | some v => v != 0

/-- `c.req.query(..) || null`: a missing or empty query parameter becomes
`null`. -/
def queryOrNull : Option String → Option String
  | none => none
  | some s => if s = "" then none else some s

/-- The guard `result.expire_at && result.expire_at < now`. -/
def expireBlocked (l : ShortLink) (now : Nat) : Bool :=
  match l.expire_at with
  | none => false
  | some v => v != 0 && decide (v < now)

/-- The guard `result.max_visits && result.total_clicks >= result.max_visits`. -/
def limitBlocked (l : ShortLink) : Bool :=
  match l.max_visits with
  | none => false
  | some m => m != 0 && decide (m ≤ l.total_clicks)

/-- The `baseEvent` record built for every resolved link. -/
def baseEvent (result : ShortLink) (now : Nat) (ctx : RequestCtx) : VisitEventData :=
  { short_link_id := result.id, domain_id := result.domain_id, code := result.code,
    visited_at := now, ip := ctx.ip, ua := ctx.ua, referer := ctx.referer,
    country := ctx.country, region := ctx.region, city := ctx.city,
    device_type := ctx.device_type, os := ctx.os, browser := ctx.browser,
    is_blocked := 0, block_reason := none, http_status := result.redirect_http_code }

/-- `\x7b ...baseEvent, is_blocked: 1, block_reason, http_status \x7d`. -/
def blockedEvent (ev : VisitEventData) (reason : String) (status : Nat) : VisitEventData :=
  { ev with is_blocked := 1, block_reason := some reason, http_status := status }

/-- The not-found branch: render the domain error page (404) or the JSON
fallback; no visit event is recorded. -/
def notFoundResult (env : Env) (host code : String) : HandlerResult :=
  { response :=
      match getErrorPageHtml env host none
        [("error_message", "Short link not found"), ("error_code", "-3"),
         ("http_status", "404"), ("code", code)] with
      | some h => .html h 404
      | none => .jsonErr "not_found" "Short link not found" 404,
    events := [], clicksIncremented := 0 }

/-- The expired branch: record a blocked event (`expired`, 410) and
respond 410. -/
def expiredResult (env : Env) (host : String) (result : ShortLink) (now : Nat)
    (ctx : RequestCtx) : HandlerResult :=
  { response :=
      match getErrorPageHtml env host (some result)
        [("error_message", "Link expired"), ("error_code", "-4"),
         ("http_status", "410")] with
      | some h => .html h 410
      | none => .jsonErr "expired" "Link expired" 410,
    events := [blockedEvent (baseEvent result now ctx) "expired" 410],
    clicksIncremented := 0 }

/-- The visit-limit branch: record a blocked event (`limit`, 410) and
respond 410. -/
def limitResult (env : Env) (host : String) (result : ShortLink) (now : Nat)
    (ctx : RequestCtx) : HandlerResult :=
  { response :=
      match getErrorPageHtml env host (some result)
        [("error_message", "Link visit limit reached"), ("error_code", "-5"),
         ("http_status", "410")] with
      | some h => .html h 410
      | none => .jsonErr "limit" "Link visit limit reached" 410,
    events := [blockedEvent (baseEvent result now ctx) "limit" 410],
    clicksIncremented := 0 }

/-- The wrong-password branch: record a blocked event
(`password_wrong`, 401); respond with the password template rendered with
`errorpassword=true` at HTTP 200, else `"server error"` at 500. -/
def wrongPasswordResult (env : Env) (base : VisitEventData)
    (passwordTemplateId : Option Nat) : HandlerResult :=
  { response :=
      match passwordTemplateId with
      | some tid =>
        if tid = 0 then .text "server error" 500
        else
          match getTemplateContent env tid [("errorpassword", "true")] with
          | some h => .html h 200
          | none => .text "server error" 500
      | none => .text "server error" 500,
    events := [blockedEvent base "password_wrong" 401], clicksIncremented := 0 }

/-- The no-password branch: record a blocked event (`password`, 401);
respond with the password template rendered with `errorpassword=false` at
HTTP 200, else `"Password required"` at 401. -/
def passwordChallengeResult (env : Env) (base : VisitEventData)
    (passwordTemplateId : Option Nat) : HandlerResult :=
  { response :=
      match passwordTemplateId with
      | some tid =>
        if tid = 0 then .text "Password required" 401
        else
          match getTemplateContent env tid [("errorpassword", "false")] with
          | some h => .html h 200
          | none => .text "Password required" 401
      | none => .text "Password required" 401,
    events := [blockedEvent base "password" 401], clicksIncremented := 0 }

/-- The allow block (repeated verbatim three times in the handler):
record the unblocked base event, increment `total_clicks`, and issue the
configured redirect. -/
def allowResult (result : ShortLink) (now : Nat) (ctx : RequestCtx) : HandlerResult :=
  { response := .redirect result.target_url result.redirect_http_code,
    events := [baseEvent result now ctx], clicksIncremented := 1 }

/-- The replacements injected into a freshly issued interstitial page:
`delay`, `timestamp` (= `now`), `sign` (a fresh ticket for `now`). -/
def challengeReplacements (result : ShortLink) (now : Nat) (host code secret : String) :
    List (String × String) :=
  [("delay", toString result.interstitial_delay),
   ("timestamp", toString now),
   ("sign", generateHmacSignature secret (.int now) host code)]

/-- Whether a presented ticket is accepted: a timestamp parameter alone
when `force_interstitial !== 1`; with forced verification also a
signature that verifies and an elapsed time within
`[interstitial_delay - 1, 1800]`. -/
def ticketAccepted (secret host code : String) (now : Nat) (result : ShortLink)
    (timestampStr sign : Option String) : Bool :=
  match timestampStr with
  | none => false
  | some tsStr =>
    if result.force_interstitial != 1 then true
    else
      match sign with
      | none => false
      | some s =>
        let timestamp := parseIntJs tsStr
        if verifyHmacSignature secret timestamp host code s then
          match timestamp with
          | .int ts =>
            decide (result.interstitial_delay - 1 ≤ (now : Int) - ts) &&
              decide ((now : Int) - ts ≤ 1800)
          | .nan => false
        else false

/-- The interstitial step, entered when `use_interstitial` and
`template_id` are both truthy: either accept the ticket and fall to the
allow block, or render a fresh interstitial challenge (blocked event
`interstitial`, HTTP 200); when the template fails to load, fall to the
allow block. -/
def interstitialStep (env : Env) (host code : String) (now : Nat)
    (result : ShortLink) (ctx : RequestCtx) (timestampStr sign : Option String)
    (templateId : Nat) : HandlerResult :=
  if ticketAccepted env.jwtSecret host code now result timestampStr sign then
    allowResult result now ctx
  else
    match getTemplateContent env templateId
        (challengeReplacements result now host code env.jwtSecret) with
    | some h =>
      { response := .html h 200,
        events := [blockedEvent (baseEvent result now ctx) "interstitial" 200],
        clicksIncremented := 0 }
    | none => allowResult result now ctx

/-- The effective password-template id:
`result.password_template_id ?? result.domain_password_template_id`. -/
def effectivePasswordTemplateId (result : ShortLink) : Option Nat :=
  match result.password_template_id with
  | some t => some t
  | none => result.domain_password_template_id

/-- The password check (`if (result.password) ...`): `none` means advance
(no password configured, or the supplied password matches); `some`
carries the terminal result. -/
def passwordGate (env : Env) (result : ShortLink) (now : Nat) (ctx : RequestCtx)
    (password : Option String) : Option HandlerResult :=
  match result.password with
  | none => none
  | some storedPw =>
    if storedPw = "" then none
    else
      match password with
      | some given =>
        if storedPw != given then
          some (wrongPasswordResult env (baseEvent result now ctx)
            (effectivePasswordTemplateId result))
        else none
      | none =>
        some (passwordChallengeResult env (baseEvent result now ctx)
          (effectivePasswordTemplateId result))

/-- The whole `GET /:code` handler: query-parameter normalisation, link
lookup result, then the ordered checks expiry → visit limit → password →
interstitial → allow. -/
def handleRedirect (env : Env) (code host : String) (now : Nat)
    (passwordQ tQ sQ : Option String) (ctx : RequestCtx)
    (lookup : Option ShortLink) : HandlerResult :=
  let password := queryOrNull passwordQ
  let timestampStr := queryOrNull tQ
  let sign := queryOrNull sQ
  match lookup with
  | none => notFoundResult env host code
  | some result =>
    if expireBlocked result now then expiredResult env host result now ctx
    else if limitBlocked result then limitResult env host result now ctx
    else
      match passwordGate env result now ctx password with
      | some r => r
      | none =>
        if result.use_interstitial != 0 && truthyOpt result.template_id then
          interstitialStep env host code now result ctx timestampStr sign
            (result.template_id.getD 0)
        else allowResult result now ctx

/-! ### Concrete fixtures used by witnesses and counterexamples -/

/-- A neutral request context. -/
def ctx0 : RequestCtx :=
  ⟨none, none, none, "", "", "", "unknown", "unknown", "unknown"⟩

/-- An environment with empty tables. -/
def env0 : Env := ⟨fun _ => none, fun _ _ => none, none, fun _ => none, "k"⟩

/-- A plain link: no password, no interstitial, no limits. -/
def link0 : ShortLink :=
  { id := 1, domain_id := 1, code := "c", target_url := "https://t.example",
    redirect_http_code := 302, use_interstitial := 0, interstitial_delay := 0,
    force_interstitial := 0, template_id := none, password := none,
    max_visits := none, expire_at := none, total_clicks := 0,
    password_template_id := none, error_template_id := none,
    domain_password_template_id := none, domain_error_template_id := none }

/-! ### Helper lemmas -/

/-- The round trip of the ticket protocol: recompute-and-compare accepts
the signature it just generated. -/
theorem verify_generate (secret : String) (timestamp : JsNum) (host code : String) :
    verifyHmacSignature secret timestamp host code
      (generateHmacSignature secret timestamp host code) = true := by
  simp [verifyHmacSignature]

/-- Any other signature value is rejected. -/
theorem verify_ne_false (secret : String) (timestamp : JsNum) (host code σ : String)
    (h : σ ≠ generateHmacSignature secret timestamp host code) :
    verifyHmacSignature secret timestamp host code σ = false := by
  simp [verifyHmacSignature]
  exact fun he => absurd he.symm h

/-- A SHA-256 digest has 32 bytes. -/
theorem sha256_length (msg : List Nat) : (sha256 msg).length = 32 := rfl

/-- Hex encoding doubles the length. -/
theorem toHex_length (bytes : List Nat) : (toHex bytes).length = 2 * bytes.length := by
  induction bytes with
  | nil => rfl
  | cons b bs ih =>
    simp only [toHex, String.length] at ih ⊢
    simp [List.foldr, hexByte] at ih ⊢
    omega

/-- A generated signature is always 64 characters long. -/
theorem generate_length (secret : String) (timestamp : JsNum) (host code : String) :
    (generateHmacSignature secret timestamp host code).length = 64 := by
  have h1 : (hmacSha256 (utf8Encode secret)
      (utf8Encode (hmacMessage timestamp host code))).length = 32 := sha256_length _
  simp [generateHmacSignature, toHex_length, h1]

/-- The password gate, when it short-circuits, produces the
wrong-password or the challenge terminal. -/
theorem passwordGate_shape (env : Env) (link : ShortLink) (now : Nat) (ctx : RequestCtx)
    (pw : Option String) (r : HandlerResult)
    (h : passwordGate env link now ctx pw = some r) :
    r = wrongPasswordResult env (baseEvent link now ctx) (effectivePasswordTemplateId link) ∨
    r = passwordChallengeResult env (baseEvent link now ctx) (effectivePasswordTemplateId link) := by
  rcases hp : link.password with _ | p <;> rw [passwordGate, hp] at h
  · simp at h
  · by_cases hpe : p = ""
    · simp [hpe] at h
    · rcases hq : pw with _ | q <;> simp [hpe, hq] at h
      · exact Or.inr h.symm
      · exact Or.inl h.2.symm

/-- The interstitial step either falls to the allow block or renders a
challenge page. -/
theorem interstitialStep_shape (env : Env) (host code : String) (now : Nat)
    (link : ShortLink) (ctx : RequestCtx) (ts sg : Option String) (tid : Nat) :
    interstitialStep env host code now link ctx ts sg tid = allowResult link now ctx ∨
    ∃ p, interstitialStep env host code now link ctx ts sg tid =
      ⟨.html p 200, [blockedEvent (baseEvent link now ctx) "interstitial" 200], 0⟩ := by
  rw [interstitialStep]
  by_cases ha : ticketAccepted env.jwtSecret host code now link ts sg = true
  · simp [ha]
  · rw [if_neg ha]
    cases hgt : getTemplateContent env tid
        (challengeReplacements link now host code env.jwtSecret) with
    | none => exact Or.inl rfl
    | some p => exact Or.inr ⟨p, rfl⟩

/-- Every resolved request terminates in one of the six dispositions:
expired, limit, wrong password, password challenge, interstitial
challenge, or allow. -/
theorem found_result_cases (env : Env) (code host : String) (now : Nat)
    (passwordQ tQ sQ : Option String) (ctx : RequestCtx) (link : ShortLink) :
    (expireBlocked link now = true ∧
      handleRedirect env code host now passwordQ tQ sQ ctx (some link) =
        expiredResult env host link now ctx) ∨
    (expireBlocked link now = false ∧ limitBlocked link = true ∧
      handleRedirect env code host now passwordQ tQ sQ ctx (some link) =
        limitResult env host link now ctx) ∨
    handleRedirect env code host now passwordQ tQ sQ ctx (some link) =
      wrongPasswordResult env (baseEvent link now ctx) (effectivePasswordTemplateId link) ∨
    handleRedirect env code host now passwordQ tQ sQ ctx (some link) =
      passwordChallengeResult env (baseEvent link now ctx) (effectivePasswordTemplateId link) ∨
    (∃ p, handleRedirect env code host now passwordQ tQ sQ ctx (some link) =
      ⟨.html p 200, [blockedEvent (baseEvent link now ctx) "interstitial" 200], 0⟩) ∨
    handleRedirect env code host now passwordQ tQ sQ ctx (some link) =
      allowResult link now ctx := by
  rcases Bool.eq_false_or_eq_true (expireBlocked link now) with h1 | h1
  · exact Or.inl ⟨h1, by simp [handleRedirect, h1]⟩
  · rcases Bool.eq_false_or_eq_true (limitBlocked link) with h2 | h2
    · exact Or.inr (Or.inl ⟨h1, h2, by simp [handleRedirect, h1, h2]⟩)
    · cases hpg : passwordGate env link now ctx (queryOrNull passwordQ) with
      | some r =>
        have hh : handleRedirect env code host now passwordQ tQ sQ ctx (some link) = r := by
          simp [handleRedirect, h1, h2, hpg]
        rcases passwordGate_shape env link now ctx _ r hpg with h | h
        · exact Or.inr (Or.inr (Or.inl (hh.trans h)))
        · exact Or.inr (Or.inr (Or.inr (Or.inl (hh.trans h))))
      | none =>
        rcases Bool.eq_false_or_eq_true
            (link.use_interstitial != 0 && truthyOpt link.template_id) with h3 | h3
        · have hh : handleRedirect env code host now passwordQ tQ sQ ctx (some link) =
              interstitialStep env host code now link ctx (queryOrNull tQ) (queryOrNull sQ)
                (link.template_id.getD 0) := by
            simp [handleRedirect, h1, h2, hpg, h3]
          rcases interstitialStep_shape env host code now link ctx
              (queryOrNull tQ) (queryOrNull sQ) (link.template_id.getD 0) with h | ⟨p, h⟩
          · exact Or.inr (Or.inr (Or.inr (Or.inr (Or.inr (hh.trans h)))))
          · exact Or.inr (Or.inr (Or.inr (Or.inr (Or.inl ⟨p, hh.trans h⟩))))
        · exact Or.inr (Or.inr (Or.inr (Or.inr (Or.inr
            (by simp [handleRedirect, h1, h2, hpg, h3])))))

/-- The expired terminal never responds with a redirect. -/
theorem expiredResult_ne_redirect (env : Env) (host : String) (link : ShortLink)
    (now : Nat) (ctx : RequestCtx) (u : String) (s : Nat) :
    (expiredResult env host link now ctx).response ≠ .redirect u s := by
  unfold expiredResult
  dsimp only
  split <;> simp

/-- The visit-limit terminal never responds with a redirect. -/
theorem limitResult_ne_redirect (env : Env) (host : String) (link : ShortLink)
    (now : Nat) (ctx : RequestCtx) (u : String) (s : Nat) :
    (limitResult env host link now ctx).response ≠ .redirect u s := by
  unfold limitResult
  dsimp only
  split <;> simp

/-- The wrong-password terminal never responds with a redirect. -/
theorem wrongPasswordResult_ne_redirect (env : Env) (base : VisitEventData)
    (ptid : Option Nat) (u : String) (s : Nat) :
    (wrongPasswordResult env base ptid).response ≠ .redirect u s := by
  unfold wrongPasswordResult
  dsimp only
  split
  · split
    · simp
    · split <;> simp
  · simp

/-- The password-challenge terminal never responds with a redirect. -/
theorem passwordChallengeResult_ne_redirect (env : Env) (base : VisitEventData)
    (ptid : Option Nat) (u : String) (s : Nat) :
    (passwordChallengeResult env base ptid).response ≠ .redirect u s := by
  unfold passwordChallengeResult
  dsimp only
  split
  · split
    · simp
    · split <;> simp
  · simp

/-! ### Claim C1 — expiry check -/

/-- A link whose `expire_at` is the epoch time 0. -/
def linkExpZero : ShortLink :=
  { link0 with expire_at := some 0 }

/-- C1, counterexample: `expire_at = 0` is an epoch time set and earlier
than `now = 1`, yet resolution issues the 302 redirect, not 410 — the
guard `result.expire_at && result.expire_at < now` treats the value 0 as
unset. -/
theorem expiry_epoch_zero_not_blocked :
    linkExpZero.expire_at = some 0 ∧ (0 : Nat) < 1 ∧
    (handleRedirect env0 "c" "h" 1 none none none ctx0 (some linkExpZero)).response =
      .redirect "https://t.example" 302 :=
  ⟨rfl, by decide, by decide⟩

/-- C1 (amended): for every request whose resolved link has `expire_at`
set to a nonzero epoch time earlier than the current time, resolution
terminates with HTTP status 410 and a single blocked visit event with
reason `expired` and status 410, with no click increment — regardless of
the link's password or interstitial configuration. -/
theorem expiry_check_terminal_410 (env : Env) (code host : String) (now : Nat)
    (passwordQ tQ sQ : Option String) (ctx : RequestCtx) (link : ShortLink)
    (t : Nat) (he : link.expire_at = some t) (ht : t ≠ 0) (hlt : t < now) :
    (handleRedirect env code host now passwordQ tQ sQ ctx (some link)).response.status = 410 ∧
    (handleRedirect env code host now passwordQ tQ sQ ctx (some link)).events =
      [blockedEvent (baseEvent link now ctx) "expired" 410] ∧
    (handleRedirect env code host now passwordQ tQ sQ ctx (some link)).clicksIncremented = 0 := by
  have hguard : expireBlocked link now = true := by
    simp [expireBlocked, he, ht, hlt]
  simp only [handleRedirect, hguard, if_true]
  refine ⟨?_, rfl, rfl⟩
  unfold expiredResult
  cases hgt : getErrorPageHtml env host (some link)
      [("error_message", "Link expired"), ("error_code", "-4"), ("http_status", "410")] <;>
    simp [hgt, Response.status]

/-- An expired link that also has a password and interstitial configured. -/
def linkExpired : ShortLink :=
  { link0 with
    expire_at := some 5,
    password := some "p",
    use_interstitial := 1,
    template_id := some 1 }

/-- C1 witness: a password-protected, interstitial-enabled link expired
at epoch 5, visited at epoch 10, yields HTTP 410. -/
theorem expiry_check_terminal_410_witness :
    linkExpired.expire_at = some 5 ∧ (5 : Nat) ≠ 0 ∧ 5 < 10 ∧
    (handleRedirect env0 "c" "h" 10 none none none ctx0
      (some linkExpired)).response.status = 410 :=
  ⟨rfl, by decide, by decide,
    (expiry_check_terminal_410 env0 "c" "h" 10 none none none ctx0 linkExpired 5 rfl
      (by decide) (by decide)).1⟩

/-! ### Claim C6 — visit recording -/

/-- C6, counterexample: a request for a missing link reaches the
NotFound terminal disposition yet records zero visit events, not one. -/
theorem notfound_records_no_event :
    (handleRedirect env0 "c" "h" 1 none none none ctx0 none).events.length = 0 := rfl

/-- C6 (amended): every request that resolves a link appends exactly one
visit event, carrying the request context (link, timestamp, client
fields), and its blocked flag is 0 exactly on the allowed path — the one
that issues the redirect and increments the click counter; a NotFound
request appends no visit event. -/
theorem visit_recorded_once_per_resolved_request (env : Env) (code host : String)
    (now : Nat) (passwordQ tQ sQ : Option String) (ctx : RequestCtx) (link : ShortLink) :
    (handleRedirect env code host now passwordQ tQ sQ ctx none).events = [] ∧
    ∃ e, (handleRedirect env code host now passwordQ tQ sQ ctx (some link)).events = [e] ∧
      e.short_link_id = link.id ∧ e.domain_id = link.domain_id ∧ e.code = link.code ∧
      e.visited_at = now ∧ e.ip = ctx.ip ∧ e.ua = ctx.ua ∧ e.referer = ctx.referer ∧
      (e.is_blocked = 0 ↔
        (handleRedirect env code host now passwordQ tQ sQ ctx (some link)).response =
          .redirect link.target_url link.redirect_http_code) ∧
      (e.is_blocked = 0 ↔
        (handleRedirect env code host now passwordQ tQ sQ ctx (some link)).clicksIncremented = 1) := by
  refine ⟨rfl, ?_⟩
  rcases found_result_cases env code host now passwordQ tQ sQ ctx link with
    ⟨_, h⟩ | ⟨_, _, h⟩ | h | h | ⟨p, h⟩ | h <;> rw [h]
  · exact ⟨_, rfl, rfl, rfl, rfl, rfl, rfl, rfl, rfl,
      iff_of_false (by simp [blockedEvent]) (expiredResult_ne_redirect env host link now ctx _ _),
      iff_of_false (by simp [blockedEvent]) (by simp [expiredResult])⟩
  · exact ⟨_, rfl, rfl, rfl, rfl, rfl, rfl, rfl, rfl,
      iff_of_false (by simp [blockedEvent]) (limitResult_ne_redirect env host link now ctx _ _),
      iff_of_false (by simp [blockedEvent]) (by simp [limitResult])⟩
  · exact ⟨_, rfl, rfl, rfl, rfl, rfl, rfl, rfl, rfl,
      iff_of_false (by simp [blockedEvent]) (wrongPasswordResult_ne_redirect env _ _ _ _),
      iff_of_false (by simp [blockedEvent]) (by simp [wrongPasswordResult])⟩
  · exact ⟨_, rfl, rfl, rfl, rfl, rfl, rfl, rfl, rfl,
      iff_of_false (by simp [blockedEvent]) (passwordChallengeResult_ne_redirect env _ _ _ _),
      iff_of_false (by simp [blockedEvent]) (by simp [passwordChallengeResult])⟩
  · exact ⟨_, rfl, rfl, rfl, rfl, rfl, rfl, rfl, rfl,
      iff_of_false (by simp [blockedEvent]) (by simp),
      iff_of_false (by simp [blockedEvent]) (by simp)⟩
  · exact ⟨_, rfl, rfl, rfl, rfl, rfl, rfl, rfl, rfl,
      iff_of_true rfl rfl, iff_of_true rfl rfl⟩

/-! ### Claim C9 — zero sentinels -/

/-- C9: a link with `max_visits = 0` is never blocked by the visit-limit
check, and a link with `expire_at = 0` is never blocked as expired: no
recorded visit event carries the corresponding block reason. -/
theorem zero_sentinels_never_block (env : Env) (code host : String) (now : Nat)
    (passwordQ tQ sQ : Option String) (ctx : RequestCtx) (link : ShortLink) :
    (link.max_visits = some 0 →
      ((handleRedirect env code host now passwordQ tQ sQ ctx (some link)).events.all
        fun e => e.block_reason != some "limit") = true) ∧
    (link.expire_at = some 0 →
      ((handleRedirect env code host now passwordQ tQ sQ ctx (some link)).events.all
        fun e => e.block_reason != some "expired") = true) := by
  constructor
  · intro hm
    have hlb : limitBlocked link = false := by simp [limitBlocked, hm]
    rcases found_result_cases env code host now passwordQ tQ sQ ctx link with
      ⟨_, h⟩ | ⟨_, h2, _⟩ | h | h | ⟨p, h⟩ | h
    · rw [h]; simp [expiredResult, blockedEvent, baseEvent]
    · rw [hlb] at h2; exact absurd h2 (by simp)
    · rw [h]; simp [wrongPasswordResult, blockedEvent, baseEvent]
    · rw [h]; simp [passwordChallengeResult, blockedEvent, baseEvent]
    · rw [h]; simp [blockedEvent, baseEvent]
    · rw [h]; simp [allowResult, baseEvent]
  · intro hx
    have heb : expireBlocked link now = false := by simp [expireBlocked, hx]
    rcases found_result_cases env code host now passwordQ tQ sQ ctx link with
      ⟨h1, _⟩ | ⟨_, _, h⟩ | h | h | ⟨p, h⟩ | h
    · rw [heb] at h1; exact absurd h1 (by simp)
    · rw [h]; simp [limitResult, blockedEvent, baseEvent]
    · rw [h]; simp [wrongPasswordResult, blockedEvent, baseEvent]
    · rw [h]; simp [passwordChallengeResult, blockedEvent, baseEvent]
    · rw [h]; simp [blockedEvent, baseEvent]
    · rw [h]; simp [allowResult, baseEvent]

/-- A link with the zero sentinels set and a click count that would
exceed a real limit. -/
def linkZero : ShortLink :=
  { link0 with
    max_visits := some 0,
    expire_at := some 0,
    total_clicks := 7 }

/-- C9 witness: with `max_visits = 0`, `expire_at = 0`, `total_clicks = 7`
and `now = 9`, no recorded event is a limit or expiry block. -/
theorem zero_sentinels_never_block_witness :
    linkZero.max_visits = some 0 ∧ linkZero.expire_at = some 0 ∧
    ((handleRedirect env0 "c" "h" 9 none none none ctx0 (some linkZero)).events.all
      fun e => e.block_reason != some "limit") = true ∧
    ((handleRedirect env0 "c" "h" 9 none none none ctx0 (some linkZero)).events.all
      fun e => e.block_reason != some "expired") = true :=
  ⟨rfl, rfl,
    (zero_sentinels_never_block env0 "c" "h" 9 none none none ctx0 linkZero).1 rfl,
    (zero_sentinels_never_block env0 "c" "h" 9 none none none ctx0 linkZero).2 rfl⟩

/-! ### Claim C4 — wrong password -/

/-- An environment whose template 5 is an active inline password page. -/
def envPw : Env :=
  ⟨fun i => if i = 5 then some ⟨1, 0, some "T", none, none⟩ else none,
   fun _ _ => none, none, fun _ => none, "k"⟩

/-- A password-protected link with a link-level password template. -/
def linkPw : ShortLink :=
  { link0 with
    password := some "p",
    password_template_id := some 5 }

/-- A password-protected link with no password template anywhere. -/
def linkPwBare : ShortLink :=
  { link0 with password := some "p" }

/-- C4, counterexample: a wrong password (`q` against stored `p`) yields
HTTP 200 with the rendered template — not 401 — and, with no template
available, plain-text `server error` with HTTP 500 — not a 401
fallback.  (The 401 appears only in the recorded visit event.) -/
theorem wrong_password_not_401 :
    linkPw.password = some "p" ∧
    (handleRedirect envPw "c" "h" 1 (some "q") none none ctx0 (some linkPw)).response.status
      = 200 ∧
    (handleRedirect envPw "c" "h" 1 (some "q") none none ctx0 (some linkPw)).response.status
      ≠ 401 ∧
    (handleRedirect env0 "c" "h" 1 (some "q") none none ctx0 (some linkPwBare)).response =
      .text "server error" 500 :=
  ⟨rfl, rfl, by decide, rfl⟩

/-- C4 (amended): a supplied, mismatched password records one blocked
visit event with reason `password_wrong` and status 401, while the HTTP
response is the effective password template rendered with
`errorpassword=true` at status 200, or plain text `server error` at
status 500 when no template renders. -/
theorem wrong_password_outcome (env : Env) (code host : String) (now : Nat)
    (passwordQ tQ sQ : Option String) (ctx : RequestCtx) (link : ShortLink)
    (p q : String)
    (h1 : expireBlocked link now = false) (h2 : limitBlocked link = false)
    (hp : link.password = some p) (hpne : p ≠ "")
    (hq : queryOrNull passwordQ = some q) (hne : p ≠ q) :
    handleRedirect env code host now passwordQ tQ sQ ctx (some link) =
      wrongPasswordResult env (baseEvent link now ctx) (effectivePasswordTemplateId link) ∧
    (handleRedirect env code host now passwordQ tQ sQ ctx (some link)).events =
      [blockedEvent (baseEvent link now ctx) "password_wrong" 401] ∧
    (∀ t body, effectivePasswordTemplateId link = some t → t ≠ 0 →
      getTemplateContent env t [("errorpassword", "true")] = some body →
      (handleRedirect env code host now passwordQ tQ sQ ctx (some link)).response =
        .html body 200) ∧
    ((effectivePasswordTemplateId link = none ∨
      (∃ t, effectivePasswordTemplateId link = some t ∧
        (t = 0 ∨ getTemplateContent env t [("errorpassword", "true")] = none))) →
      (handleRedirect env code host now passwordQ tQ sQ ctx (some link)).response =
        .text "server error" 500) := by
  have hpg : passwordGate env link now ctx (queryOrNull passwordQ) =
      some (wrongPasswordResult env (baseEvent link now ctx)
        (effectivePasswordTemplateId link)) := by
    simp [passwordGate, hp, hpne, hq, hne]
  have hmain : handleRedirect env code host now passwordQ tQ sQ ctx (some link) =
      wrongPasswordResult env (baseEvent link now ctx) (effectivePasswordTemplateId link) := by
    simp [handleRedirect, h1, h2, hpg]
  refine ⟨hmain, by rw [hmain]; rfl, ?_, ?_⟩
  · intro t body ht ht0 hgt
    rw [hmain]
    unfold wrongPasswordResult
    simp [ht, ht0, hgt]
  · intro hcase
    rw [hmain]
    unfold wrongPasswordResult
    rcases hcase with hn | ⟨t, ht, h0 | hgt⟩
    · simp [hn]
    · simp [ht, h0]
    · by_cases h0 : t = 0
      · simp [ht, h0]
      · simp [ht, h0, hgt]

/-- C4 witness: stored `p`, supplied `q`, template 5 active: one
`password_wrong` event with status 401, and an HTTP-200 rendered page. -/
theorem wrong_password_outcome_witness :
    expireBlocked linkPw 1 = false ∧ limitBlocked linkPw = false ∧
    linkPw.password = some "p" ∧ "p" ≠ "" ∧
    queryOrNull (some "q") = some "q" ∧ "p" ≠ "q" ∧
    effectivePasswordTemplateId linkPw = some 5 ∧ (5 : Nat) ≠ 0 ∧
    getTemplateContent envPw 5 [("errorpassword", "true")] =
      some (applyReplacements [("errorpassword", "true")] "T") ∧
    (handleRedirect envPw "c" "h" 1 (some "q") none none ctx0 (some linkPw)).events =
      [blockedEvent (baseEvent linkPw 1 ctx0) "password_wrong" 401] ∧
    (handleRedirect envPw "c" "h" 1 (some "q") none none ctx0 (some linkPw)).response =
      .html (applyReplacements [("errorpassword", "true")] "T") 200 :=
  ⟨rfl, rfl, rfl, by decide, rfl, by decide, rfl, by decide, rfl,
    (wrong_password_outcome envPw "c" "h" 1 (some "q") none none ctx0 linkPw "p" "q"
      rfl rfl rfl (by decide) rfl (by decide)).2.1,
    (wrong_password_outcome envPw "c" "h" 1 (some "q") none none ctx0 linkPw "p" "q"
      rfl rfl rfl (by decide) rfl (by decide)).2.2.1 5
      (applyReplacements [("errorpassword", "true")] "T") rfl (by decide) rfl⟩

/-! ### Claim C10 — empty password parameter -/

/-- A link whose stored password is the empty string (storable: the
creation endpoint inserts `body.password ?? null` unchanged). -/
def linkPwEmpty : ShortLink :=
  { link0 with password := some "" }

/-- C10, counterexample: with stored password `""` and the password
parameter present but empty, no challenge page is rendered at all — the
stored empty string is falsy, the whole gate is skipped, and the request
redirects with an unblocked visit event (no reason `password`). -/
theorem stored_empty_password_no_challenge :
    linkPwEmpty.password = some "" ∧
    (handleRedirect env0 "c" "h" 1 (some "") none none ctx0 (some linkPwEmpty)).response =
      .redirect "https://t.example" 302 ∧
    (handleRedirect env0 "c" "h" 1 (some "") none none ctx0 (some linkPwEmpty)).events =
      [baseEvent linkPwEmpty 1 ctx0] :=
  ⟨rfl, rfl, rfl⟩

/-- C10 (amended): a present-but-empty `password` parameter is treated
exactly as an absent one (for every link); for every *nonempty* stored
password this yields the challenge outcome: one blocked event with
reason `password` and status 401, and the password template rendered
with `errorpassword=false` at HTTP 200 (or the plain-text 401 fallback),
never the wrong-password outcome. -/
theorem empty_password_param_treated_as_absent (env : Env) (code host : String)
    (now : Nat) (tQ sQ : Option String) (ctx : RequestCtx) (lookup : Option ShortLink)
    (link : ShortLink) (p : String)
    (h1 : expireBlocked link now = false) (h2 : limitBlocked link = false)
    (hp : link.password = some p) (hpne : p ≠ "") :
    (handleRedirect env code host now (some "") tQ sQ ctx lookup =
      handleRedirect env code host now none tQ sQ ctx lookup) ∧
    handleRedirect env code host now (some "") tQ sQ ctx (some link) =
      passwordChallengeResult env (baseEvent link now ctx)
        (effectivePasswordTemplateId link) ∧
    (handleRedirect env code host now (some "") tQ sQ ctx (some link)).events =
      [blockedEvent (baseEvent link now ctx) "password" 401] ∧
    (∀ t body, effectivePasswordTemplateId link = some t → t ≠ 0 →
      getTemplateContent env t [("errorpassword", "false")] = some body →
      (handleRedirect env code host now (some "") tQ sQ ctx (some link)).response =
        .html body 200) ∧
    ((effectivePasswordTemplateId link = none ∨
      (∃ t, effectivePasswordTemplateId link = some t ∧
        (t = 0 ∨ getTemplateContent env t [("errorpassword", "false")] = none))) →
      (handleRedirect env code host now (some "") tQ sQ ctx (some link)).response =
        .text "Password required" 401) := by
  have hpg : passwordGate env link now ctx (queryOrNull (some "")) =
      some (passwordChallengeResult env (baseEvent link now ctx)
        (effectivePasswordTemplateId link)) := by
    simp [passwordGate, queryOrNull, hp, hpne]
  have hmain : handleRedirect env code host now (some "") tQ sQ ctx (some link) =
      passwordChallengeResult env (baseEvent link now ctx)
        (effectivePasswordTemplateId link) := by
    simp [handleRedirect, h1, h2, hpg]
  refine ⟨rfl, hmain, by rw [hmain]; rfl, ?_, ?_⟩
  · intro t body ht ht0 hgt
    rw [hmain]
    unfold passwordChallengeResult
    simp [ht, ht0, hgt]
  · intro hcase
    rw [hmain]
    unfold passwordChallengeResult
    rcases hcase with hn | ⟨t, ht, h0 | hgt⟩
    · simp [hn]
    · simp [ht, h0]
    · by_cases h0 : t = 0
      · simp [ht, h0]
      · simp [ht, h0, hgt]

/-- C10 witness: stored `p`, empty supplied password, template 5 active:
the challenge outcome, rendered with `errorpassword=false` at 200. -/
theorem empty_password_param_treated_as_absent_witness :
    expireBlocked linkPw 1 = false ∧ limitBlocked linkPw = false ∧
    linkPw.password = some "p" ∧ "p" ≠ "" ∧
    (handleRedirect envPw "c" "h" 1 (some "") none none ctx0 (some linkPw) =
      handleRedirect envPw "c" "h" 1 none none none ctx0 (some linkPw)) ∧
    (handleRedirect envPw "c" "h" 1 (some "") none none ctx0 (some linkPw)).events =
      [blockedEvent (baseEvent linkPw 1 ctx0) "password" 401] ∧
    (handleRedirect envPw "c" "h" 1 (some "") none none ctx0 (some linkPw)).response =
      .html (applyReplacements [("errorpassword", "false")] "T") 200 :=
  ⟨rfl, rfl, rfl, by decide,
    (empty_password_param_treated_as_absent envPw "c" "h" 1 none none ctx0
      (some linkPw) linkPw "p" rfl rfl rfl (by decide)).1,
    (empty_password_param_treated_as_absent envPw "c" "h" 1 none none ctx0
      (some linkPw) linkPw "p" rfl rfl rfl (by decide)).2.2.1,
    (empty_password_param_treated_as_absent envPw "c" "h" 1 none none ctx0
      (some linkPw) linkPw "p" rfl rfl rfl (by decide)).2.2.2.1 5
      (applyReplacements [("errorpassword", "false")] "T") rfl (by decide) rfl⟩

/-! ### Claim C7 — template fallback precedence -/

/-- Template 1 inactive (link level), template 2 active (domain level). -/
def envTwoTiers : Env :=
  ⟨fun i => if i = 1 then some ⟨0, 0, some "L", none, none⟩
    else if i = 2 then some ⟨1, 0, some "D", none, none⟩ else none,
   fun _ _ => none, none, fun _ => none, "k"⟩

/-- A link with an inactive link-level error template and an active
domain-level one. -/
def slTwoTiers : ShortLink :=
  { link0 with
    error_template_id := some 1,
    domain_error_template_id := some 2 }

/-- A link with only the domain-level error template configured. -/
def slDomainOnly : ShortLink :=
  { link0 with domain_error_template_id := some 2 }

/-- C7, counterexample: the link-level error template id (1) is set but
that template is inactive; the active domain-level template (2) loads
fine on its own, yet resolution yields absent — the domain tier is never
consulted once the link-level id is non-null. -/
theorem inactive_link_template_no_domain_fallback :
    envTwoTiers.templates 1 = some ⟨0, 0, some "L", none, none⟩ ∧
    getTemplateContent envTwoTiers 2 [] = some "D" ∧
    getErrorPageHtml envTwoTiers "h" (some slTwoTiers) [] = none :=
  ⟨rfl, rfl, rfl⟩

/-- C7 (amended): error-template resolution picks the link-level id
whenever it is non-`NULL` (falling back to the domain-level id only when
the link-level id is `NULL`); the chosen id is then loaded, and a missing
or inactive template — or an id equal to 0 — yields absent (hardcoded
fallback) without consulting the other tier. -/
theorem template_resolution_null_coalescing (env : Env) (host : String)
    (sl : ShortLink) (reps : List (String × String)) :
    (∀ t, sl.error_template_id = some t → t ≠ 0 →
      getErrorPageHtml env host (some sl) reps = getTemplateContent env t reps) ∧
    (sl.error_template_id = some 0 →
      getErrorPageHtml env host (some sl) reps = none) ∧
    (∀ d, sl.error_template_id = none → sl.domain_error_template_id = some d → d ≠ 0 →
      getErrorPageHtml env host (some sl) reps = getTemplateContent env d reps) ∧
    (sl.error_template_id = none → sl.domain_error_template_id = none →
      getErrorPageHtml env host (some sl) reps = none) := by
  refine ⟨?_, ?_, ?_, ?_⟩
  · intro t ht ht0
    unfold getErrorPageHtml
    simp [ht, ht0]
  · intro ht
    unfold getErrorPageHtml
    simp [ht]
  · intro d ht hd hd0
    unfold getErrorPageHtml
    simp [ht, hd, hd0]
  · intro ht hd
    unfold getErrorPageHtml
    simp [ht, hd]

/-- C7 witness: with the two-tier fixture, the set-but-inactive link
template yields absent, and with the link-level id `NULL` the
domain-level template renders. -/
theorem template_resolution_null_coalescing_witness :
    slTwoTiers.error_template_id = some 1 ∧ (1 : Nat) ≠ 0 ∧
    getErrorPageHtml envTwoTiers "h" (some slTwoTiers) [] =
      getTemplateContent envTwoTiers 1 [] ∧
    getTemplateContent envTwoTiers 1 [] = none ∧
    slDomainOnly.error_template_id = none ∧ slDomainOnly.domain_error_template_id = some 2 ∧
    (2 : Nat) ≠ 0 ∧
    getErrorPageHtml envTwoTiers "h" (some slDomainOnly) [] =
      getTemplateContent envTwoTiers 2 [] ∧
    getTemplateContent envTwoTiers 2 [] = some "D" :=
  ⟨rfl, by decide,
    (template_resolution_null_coalescing envTwoTiers "h" slTwoTiers []).1 1 rfl (by decide),
    rfl, rfl, rfl, by decide,
    (template_resolution_null_coalescing envTwoTiers "h" slDomainOnly []).2.2.1 2 rfl rfl
      (by decide),
    rfl⟩

/-! ### Claim C5 — interstitial gate -/

/-- An environment holding a loadable interstitial template (id 7); note
the joined link row the handler reads has no domain-level interstitial
template field at all — the lookup query selects only the domain's
password/error template ids. -/
def envDomainInter : Env :=
  ⟨fun i => if i = 7 then some ⟨1, 0, some "I", none, none⟩ else none,
   fun _ _ => none, none, fun _ => none, "k"⟩

/-- A link with `use_interstitial` set but no link-level template id. -/
def linkInterNoTmpl : ShortLink :=
  { link0 with use_interstitial := 1 }

/-- An active inline interstitial template under id 1. -/
def envInter : Env :=
  ⟨fun i => if i = 1 then some ⟨1, 0, some "PAGE", none, none⟩ else none,
   fun _ _ => none, none, fun _ => none, "k"⟩

/-- A forced-interstitial link with template id 1 and a 5-second delay. -/
def linkInter : ShortLink :=
  { link0 with
    use_interstitial := 1,
    template_id := some 1,
    interstitial_delay := 5,
    force_interstitial := 1 }

/-- C5, counterexample: `use_interstitial = 1` with a `NULL` link-level
template id skips the interstitial entirely — the request redirects with
an unblocked event even though an active interstitial template (id 7)
is configured in the template store; the handler's lookup row carries no
domain-level interstitial reference to fall back to. -/
theorem interstitial_without_link_template_skipped :
    linkInterNoTmpl.use_interstitial = 1 ∧
    linkInterNoTmpl.template_id = none ∧
    envDomainInter.templates 7 = some ⟨1, 0, some "I", none, none⟩ ∧
    (handleRedirect envDomainInter "c" "h" 1 none none none ctx0
      (some linkInterNoTmpl)).response = .redirect "https://t.example" 302 ∧
    (handleRedirect envDomainInter "c" "h" 1 none none none ctx0
      (some linkInterNoTmpl)).events = [baseEvent linkInterNoTmpl 1 ctx0] :=
  ⟨rfl, rfl, rfl, rfl, rfl⟩

/-- C5 (amended): past the earlier gates, the interstitial check applies
exactly when `use_interstitial` is truthy and the *link-level*
`template_id` is set and nonzero; there is no domain-level fallback for
the interstitial role: without a truthy link-level id the request goes
straight to the allow block, and with one the interstitial step runs on
that id — rendering the challenge on a first visit whenever its content
loads. -/
theorem interstitial_gate_link_level_only (env : Env) (code host : String) (now : Nat)
    (passwordQ tQ sQ : Option String) (ctx : RequestCtx) (link : ShortLink)
    (h1 : expireBlocked link now = false) (h2 : limitBlocked link = false)
    (hpg : passwordGate env link now ctx (queryOrNull passwordQ) = none) :
    ((link.use_interstitial = 0 ∨ link.template_id = none ∨ link.template_id = some 0) →
      handleRedirect env code host now passwordQ tQ sQ ctx (some link) =
        allowResult link now ctx) ∧
    (∀ v, link.use_interstitial ≠ 0 → link.template_id = some v → v ≠ 0 →
      handleRedirect env code host now passwordQ tQ sQ ctx (some link) =
        interstitialStep env host code now link ctx (queryOrNull tQ) (queryOrNull sQ) v) ∧
    (∀ v body, link.use_interstitial ≠ 0 → link.template_id = some v → v ≠ 0 →
      queryOrNull tQ = none →
      getTemplateContent env v (challengeReplacements link now host code env.jwtSecret) =
        some body →
      (handleRedirect env code host now passwordQ tQ sQ ctx (some link)).response =
        .html body 200 ∧
      (handleRedirect env code host now passwordQ tQ sQ ctx (some link)).events =
        [blockedEvent (baseEvent link now ctx) "interstitial" 200]) := by
  refine ⟨?_, ?_, ?_⟩
  · intro hcase
    rcases hcase with hu | ht | ht
    · simp [handleRedirect, h1, h2, hpg, hu, truthyOpt]
    · simp [handleRedirect, h1, h2, hpg, ht, truthyOpt]
    · simp [handleRedirect, h1, h2, hpg, ht, truthyOpt]
  · intro v hu ht hv0
    simp [handleRedirect, h1, h2, hpg, hu, ht, truthyOpt, hv0]
  · intro v body hu ht hv0 htq hgt
    have hmain : handleRedirect env code host now passwordQ tQ sQ ctx (some link) =
        interstitialStep env host code now link ctx (queryOrNull tQ) (queryOrNull sQ) v := by
      simp [handleRedirect, h1, h2, hpg, hu, ht, truthyOpt, hv0]
    rw [hmain]
    unfold interstitialStep
    have hacc : ticketAccepted env.jwtSecret host code now link (queryOrNull tQ)
        (queryOrNull sQ) = false := by
      rw [htq]
      rfl
    rw [hacc]
    simp [hgt]

/-- C5 witness: without a link-level template id the request redirects;
with one (id 1, loadable) the first visit renders the challenge page. -/
theorem interstitial_gate_link_level_only_witness :
    expireBlocked linkInterNoTmpl 1 = false ∧ limitBlocked linkInterNoTmpl = false ∧
    passwordGate envDomainInter linkInterNoTmpl 1 ctx0 (queryOrNull none) = none ∧
    linkInterNoTmpl.template_id = none ∧
    handleRedirect envDomainInter "c" "h" 1 none none none ctx0 (some linkInterNoTmpl) =
      allowResult linkInterNoTmpl 1 ctx0 ∧
    linkInter.use_interstitial ≠ 0 ∧ linkInter.template_id = some 1 ∧
    getTemplateContent envInter 1
      (challengeReplacements linkInter 100 "h" "c" envInter.jwtSecret) =
      some (applyReplacements
        (challengeReplacements linkInter 100 "h" "c" envInter.jwtSecret) "PAGE") ∧
    (handleRedirect envInter "c" "h" 100 none none none ctx0 (some linkInter)).response =
      .html (applyReplacements
        (challengeReplacements linkInter 100 "h" "c" envInter.jwtSecret) "PAGE") 200 :=
  ⟨rfl, rfl, rfl, rfl,
    (interstitial_gate_link_level_only envDomainInter "c" "h" 1 none none none ctx0
      linkInterNoTmpl rfl rfl rfl).1 (Or.inr (Or.inl rfl)),
    by decide, rfl, rfl,
    ((interstitial_gate_link_level_only envInter "c" "h" 100 none none none ctx0
      linkInter rfl rfl rfl).2.2 1
      (applyReplacements (challengeReplacements linkInter 100 "h" "c" envInter.jwtSecret)
        "PAGE") (by decide) rfl (by decide) rfl rfl).1⟩

/-! ### Claim C8 — interstitial template failure falls through to allow -/

/-- C8: past the earlier gates, a link with a link-level `template_id`
whose interstitial content cannot be loaded (template missing, inactive,
empty inline content, or missing asset — `loadTemplateHtml = none`)
never blocks: for every combination of `t`/`s` parameters the request
ends in the allow block — one unblocked visit event, one click
increment, and the configured redirect — with no interstitial challenge
and no requirement that ticket verification succeeded. -/
theorem interstitial_template_failure_allows (env : Env) (code host : String)
    (now : Nat) (passwordQ tQ sQ : Option String) (ctx : RequestCtx) (link : ShortLink)
    (v : Nat)
    (h1 : expireBlocked link now = false) (h2 : limitBlocked link = false)
    (hpg : passwordGate env link now ctx (queryOrNull passwordQ) = none)
    (ht : link.template_id = some v)
    (hload : loadTemplateHtml env v = none) :
    handleRedirect env code host now passwordQ tQ sQ ctx (some link) =
      allowResult link now ctx ∧
    (handleRedirect env code host now passwordQ tQ sQ ctx (some link)).clicksIncremented = 1 ∧
    (handleRedirect env code host now passwordQ tQ sQ ctx (some link)).response =
      .redirect link.target_url link.redirect_http_code := by
  have hmain : handleRedirect env code host now passwordQ tQ sQ ctx (some link) =
      allowResult link now ctx := by
    rcases Bool.eq_false_or_eq_true
        (link.use_interstitial != 0 && truthyOpt link.template_id) with h3 | h3
    case inr => simp [handleRedirect, h1, h2, hpg, h3]
    · have hstep : handleRedirect env code host now passwordQ tQ sQ ctx (some link) =
          interstitialStep env host code now link ctx (queryOrNull tQ) (queryOrNull sQ)
            (link.template_id.getD 0) := by
        simp [handleRedirect, h1, h2, hpg, h3]
      rw [hstep]
      unfold interstitialStep
      have hgt : getTemplateContent env (link.template_id.getD 0)
          (challengeReplacements link now host code env.jwtSecret) = none := by
        rw [ht]
        simp [getTemplateContent, hload]
      rw [hgt]
      by_cases hacc : ticketAccepted env.jwtSecret host code now link (queryOrNull tQ)
          (queryOrNull sQ) = true
      · rw [if_pos hacc]
      · rw [if_neg hacc]
  exact ⟨hmain, by rw [hmain]; rfl, by rw [hmain]; rfl⟩

/-- C8 witness: the forced-interstitial link with template id 1 against
an environment with no templates, presented with a junk ticket, still
redirects and counts the click. -/
theorem interstitial_template_failure_allows_witness :
    expireBlocked linkInter 100 = false ∧ limitBlocked linkInter = false ∧
    passwordGate env0 linkInter 100 ctx0 (queryOrNull none) = none ∧
    linkInter.template_id = some 1 ∧ loadTemplateHtml env0 1 = none ∧
    handleRedirect env0 "c" "h" 100 none (some "95") (some "bad") ctx0 (some linkInter) =
      allowResult linkInter 100 ctx0 ∧
    (handleRedirect env0 "c" "h" 100 none (some "95") (some "bad") ctx0
      (some linkInter)).clicksIncremented = 1 :=
  ⟨rfl, rfl, rfl, rfl, rfl,
    (interstitial_template_failure_allows env0 "c" "h" 100 none (some "95") (some "bad")
      ctx0 linkInter 1 rfl rfl rfl rfl rfl).1,
    (interstitial_template_failure_allows env0 "c" "h" 100 none (some "95") (some "bad")
      ctx0 linkInter 1 rfl rfl rfl rfl rfl).2.1⟩

/-! ### Claim C2 — ticket acceptance boundary -/

/-- C2: with forced verification, a parsed timestamp `ts` and a valid
signature, and a loadable interstitial template, the request is
redirected if and only if `delay - 1 ≤ now - ts ≤ 1800`; at
`now - ts = delay - 2` and at `now - ts = 1801` it instead renders a
fresh interstitial challenge page. -/
theorem ticket_acceptance_boundary (env : Env) (code host : String) (now : Nat)
    (passwordQ tQ sQ : Option String) (ctx : RequestCtx) (link : ShortLink)
    (v : Nat) (tsStr s body : String) (ts : Int)
    (h1 : expireBlocked link now = false) (h2 : limitBlocked link = false)
    (hpg : passwordGate env link now ctx (queryOrNull passwordQ) = none)
    (hu : link.use_interstitial ≠ 0) (htid : link.template_id = some v) (hv : v ≠ 0)
    (hforce : link.force_interstitial = 1)
    (htq : queryOrNull tQ = some tsStr) (hts : parseIntJs tsStr = .int ts)
    (hsq : queryOrNull sQ = some s)
    (hsig : verifyHmacSignature env.jwtSecret (.int ts) host code s = true)
    (hbody : getTemplateContent env v
      (challengeReplacements link now host code env.jwtSecret) = some body) :
    ((handleRedirect env code host now passwordQ tQ sQ ctx (some link)).response =
        .redirect link.target_url link.redirect_http_code ↔
      (link.interstitial_delay - 1 ≤ (now : Int) - ts ∧ (now : Int) - ts ≤ 1800)) ∧
    ((now : Int) - ts = link.interstitial_delay - 2 →
      (handleRedirect env code host now passwordQ tQ sQ ctx (some link)).response =
        .html body 200) ∧
    ((now : Int) - ts = 1801 →
      (handleRedirect env code host now passwordQ tQ sQ ctx (some link)).response =
        .html body 200) := by
  have hmain : handleRedirect env code host now passwordQ tQ sQ ctx (some link) =
      interstitialStep env host code now link ctx (queryOrNull tQ) (queryOrNull sQ) v := by
    simp [handleRedirect, h1, h2, hpg, hu, htid, truthyOpt, hv]
  have hacc : ticketAccepted env.jwtSecret host code now link (queryOrNull tQ)
      (queryOrNull sQ) =
      (decide (link.interstitial_delay - 1 ≤ (now : Int) - ts) &&
        decide ((now : Int) - ts ≤ 1800)) := by
    simp [ticketAccepted, htq, hsq, hforce, hts, hsig]
  have hout : ∀ hw : ¬ (link.interstitial_delay - 1 ≤ (now : Int) - ts ∧
      (now : Int) - ts ≤ 1800),
      (handleRedirect env code host now passwordQ tQ sQ ctx (some link)).response =
        .html body 200 := by
    intro hw
    have haccf : ticketAccepted env.jwtSecret host code now link (queryOrNull tQ)
        (queryOrNull sQ) = false := by
      rw [hacc]
      rcases Decidable.not_and_iff_or_not.mp hw with hx | hx <;> simp [hx]
    rw [hmain]
    unfold interstitialStep
    rw [haccf]
    simp [hbody]
  refine ⟨?_, ?_, ?_⟩
  · by_cases hw : link.interstitial_delay - 1 ≤ (now : Int) - ts ∧ (now : Int) - ts ≤ 1800
    · have hacct : ticketAccepted env.jwtSecret host code now link (queryOrNull tQ)
          (queryOrNull sQ) = true := by
        rw [hacc]
        simp [hw.1, hw.2]
      have : (handleRedirect env code host now passwordQ tQ sQ ctx (some link)).response =
          .redirect link.target_url link.redirect_http_code := by
        rw [hmain]
        unfold interstitialStep
        rw [hacct]
        rfl
      exact iff_of_true this hw
    · exact iff_of_false (by rw [hout hw]; simp) hw
  · intro he
    refine hout ?_
    rw [he]
    intro hc
    omega
  · intro he
    refine hout ?_
    rw [he]
    intro hc
    omega

/-- A valid ticket for epoch 95 under the fixture secret. -/
def sig95 : String := generateHmacSignature envInter.jwtSecret (.int 95) "h" "c"

/-- C2 witness: delay 5, timestamp 95: at `now = 100` (elapsed 5) the
request redirects; at `now = 98` (elapsed 3 = delay−2) it renders a
fresh challenge page instead. -/
theorem ticket_acceptance_boundary_witness :
    parseIntJs "95" = .int 95 ∧
    verifyHmacSignature envInter.jwtSecret (.int 95) "h" "c" sig95 = true ∧
    ((handleRedirect envInter "c" "h" 100 none (some "95") (some sig95) ctx0
        (some linkInter)).response =
      .redirect linkInter.target_url linkInter.redirect_http_code ↔
      (linkInter.interstitial_delay - 1 ≤ (100 : Int) - 95 ∧ (100 : Int) - 95 ≤ 1800)) ∧
    (handleRedirect envInter "c" "h" 98 none (some "95") (some sig95) ctx0
      (some linkInter)).response =
      .html (applyReplacements (challengeReplacements linkInter 98 "h" "c"
        envInter.jwtSecret) "PAGE") 200 :=
  ⟨by decide, verify_generate envInter.jwtSecret (.int 95) "h" "c",
    (ticket_acceptance_boundary envInter "c" "h" 100 none (some "95") (some sig95) ctx0
      linkInter 1 "95" sig95
      (applyReplacements (challengeReplacements linkInter 100 "h" "c" envInter.jwtSecret)
        "PAGE") 95
      rfl rfl rfl (by decide) rfl (by decide) rfl rfl (by decide) rfl
      (verify_generate envInter.jwtSecret (.int 95) "h" "c") rfl).1,
    (ticket_acceptance_boundary envInter "c" "h" 98 none (some "95") (some sig95) ctx0
      linkInter 1 "95" sig95
      (applyReplacements (challengeReplacements linkInter 98 "h" "c" envInter.jwtSecret)
        "PAGE") 95
      rfl rfl rfl (by decide) rfl (by decide) rfl rfl (by decide) rfl
      (verify_generate envInter.jwtSecret (.int 95) "h" "c") rfl).2.1 (by decide)⟩

/-! ### Claim C3 — the ticket-protocol contract -/

/-- Digest bytes are bytes. -/
theorem stateBytes_lt (st : Sha2State) : ∀ x ∈ stateBytes st, x < 256 := by
  intro x hx
  simp only [stateBytes, List.mem_cons, List.not_mem_nil, or_false] at hx
  rcases hx with rfl | rfl | rfl | rfl | rfl | rfl | rfl | rfl | rfl | rfl | rfl | rfl |
    rfl | rfl | rfl | rfl | rfl | rfl | rfl | rfl | rfl | rfl | rfl | rfl | rfl | rfl |
    rfl | rfl | rfl | rfl | rfl | rfl <;>
    exact Nat.mod_lt _ (by norm_num)

/-- SHA-256 outputs bytes. -/
theorem sha256_lt (m : List Nat) : ∀ x ∈ sha256 m, x < 256 := by
  unfold sha256
  exact stateBytes_lt _

/-- HMAC-SHA-256 outputs 32 bytes. -/
theorem hmacSha256_lt (k m : List Nat) : ∀ x ∈ hmacSha256 k m, x < 256 := by
  unfold hmacSha256
  exact sha256_lt _

/-- HMAC-SHA-256 output length. -/
theorem hmacSha256_length (k m : List Nat) : (hmacSha256 k m).length = 32 :=
  sha256_length _

/-- The fixed canonical message used by the collision argument:
timestamp 0, host `h`, code `c`. -/
def c3Msg : List Nat := utf8Encode (hmacMessage (.int 0) "h" "c")

/-- The digest of a secret over `c3Msg`, packed into a finite type. -/
def hmacFin (s : String) : Fin 32 → Fin 256 := fun i =>
  ⟨(hmacSha256 (utf8Encode s) c3Msg)[i.val]! % 256, Nat.mod_lt _ (by norm_num)⟩

/-- C3, counterexample (negation of the single-field part of the claim):
it is not the case that every change to the secret field, with the other
fields held fixed, makes verification of the old signature fail — the
digest space is finite (32 bytes) while secrets are unbounded, so two
distinct secrets must collide on the same canonical message, and the
signature generated under one verifies under the other. -/
theorem signature_single_field_rejection_fails :
    ¬ (∀ (s s' : String) (t : Int) (h c : String), s ≠ s' →
        verifyHmacSignature s' (.int t) h c
          (generateHmacSignature s (.int t) h c) = false) := by
  intro H
  obtain ⟨a, b, hne, heq⟩ := Finite.exists_ne_map_eq_of_infinite hmacFin
  have hlen1 : (hmacSha256 (utf8Encode a) c3Msg).length = 32 := hmacSha256_length _ _
  have hlen2 : (hmacSha256 (utf8Encode b) c3Msg).length = 32 := hmacSha256_length _ _
  have hbytes : hmacSha256 (utf8Encode a) c3Msg = hmacSha256 (utf8Encode b) c3Msg := by
    apply List.ext_getElem (hlen1.trans hlen2.symm)
    intro n h1 h2
    have hn : n < 32 := by omega
    have hfe := congrFun heq ⟨n, hn⟩
    simp only [hmacFin, Fin.mk.injEq] at hfe
    rw [getElem!_pos (hmacSha256 (utf8Encode a) c3Msg) n h1,
      getElem!_pos (hmacSha256 (utf8Encode b) c3Msg) n h2] at hfe
    rwa [Nat.mod_eq_of_lt (hmacSha256_lt _ _ _ (List.getElem_mem _)),
      Nat.mod_eq_of_lt (hmacSha256_lt _ _ _ (List.getElem_mem _))] at hfe
  have hgen : generateHmacSignature a (.int 0) "h" "c" =
      generateHmacSignature b (.int 0) "h" "c" := by
    unfold generateHmacSignature
    rw [show utf8Encode (hmacMessage (.int 0) "h" "c") = c3Msg from rfl, hbytes]
  have hacc : verifyHmacSignature b (.int 0) "h" "c"
      (generateHmacSignature a (.int 0) "h" "c") = true := by
    rw [hgen]
    exact verify_generate b (.int 0) "h" "c"
  rw [H a b 0 "h" "c" hne] at hacc
  exact absurd hacc (by simp)

/-- C3 (amended): verification succeeds exactly when the provided
signature equals the one generated from the supplied fields — so the
round trip always verifies and every other signature value is rejected;
a change to the host or code field (others fixed) always changes the
canonical message being signed, and any perturbed verification fails
whenever the recomputed HMAC differs, but universal rejection of every
single-field perturbation cannot hold (the 32-byte digest space forces
collisions). -/
theorem hmac_ticket_contract :
    (∀ (secret h c : String) (t : Int),
      verifyHmacSignature secret (.int t) h c
        (generateHmacSignature secret (.int t) h c) = true) ∧
    (∀ (secret h c σ : String) (t : Int),
      verifyHmacSignature secret (.int t) h c σ = true ↔
        σ = generateHmacSignature secret (.int t) h c) ∧
    (∀ (t : Int) (h h' c : String), h ≠ h' →
      hmacMessage (.int t) h c ≠ hmacMessage (.int t) h' c) ∧
    (∀ (t : Int) (h c c' : String), c ≠ c' →
      hmacMessage (.int t) h c ≠ hmacMessage (.int t) h c') := by
  refine ⟨?_, ?_, ?_, ?_⟩
  · intro secret h c t
    exact verify_generate secret (.int t) h c
  · intro secret h c σ t
    unfold verifyHmacSignature
    constructor
    · intro hb
      exact (beq_iff_eq.mp hb).symm
    · intro hr
      simp [hr]
  · intro t h h' c hne heq
    apply hne
    have hd := congrArg String.data heq
    simp only [hmacMessage] at hd
    simp at hd
    exact String.ext hd
  · intro t h c c' hne heq
    apply hne
    have hd := congrArg String.data heq
    simp only [hmacMessage] at hd
    simp at hd
    exact String.ext hd

/-- C3 witness: the round trip verifies at concrete fields; a signature
of the wrong length is rejected; distinct hosts and codes yield distinct
canonical messages. -/
theorem hmac_ticket_contract_witness :
    verifyHmacSignature "k" (.int 95) "h" "c"
      (generateHmacSignature "k" (.int 95) "h" "c") = true ∧
    ("x" = generateHmacSignature "k" (.int 95) "h" "c" ↔ False) ∧
    verifyHmacSignature "k" (.int 95) "h" "c" "x" = false ∧
    ("h" : String) ≠ "h2" ∧ hmacMessage (.int 95) "h" "c" ≠ hmacMessage (.int 95) "h2" "c" ∧
    ("c" : String) ≠ "c2" ∧ hmacMessage (.int 95) "h" "c" ≠ hmacMessage (.int 95) "h" "c2" := by
  have hx : ("x" : String) ≠ generateHmacSignature "k" (.int 95) "h" "c" := by
    intro hc
    have := congrArg String.length hc
    rw [generate_length] at this
    exact absurd this (by decide)
  refine ⟨hmac_ticket_contract.1 "k" "h" "c" 95,
    iff_of_false hx (by simp), ?_, by decide,
    hmac_ticket_contract.2.2.1 95 "h" "h2" "c" (by decide), by decide,
    hmac_ticket_contract.2.2.2 95 "h" "c" "c2" (by decide)⟩
  have hiff := hmac_ticket_contract.2.1 "k" "h" "c" "x" 95
  rcases Bool.eq_false_or_eq_true
      (verifyHmacSignature "k" (.int 95) "h" "c" "x") with hvf | hvf
  · exact absurd (hiff.mp hvf) hx
  · exact hvf

end Shorturl
